import Mathlib

/-!
Verification of the snapshot-cleanup function app
(`SnapshotCleanup/__init__.py`, with `AzureSnapshotManager.py` a near
duplicate of the manager class).  The Python code is shallowly embedded:
the Azure management plane is an oracle (`World`), the manager's mutable
state (`disk_cache`, `orphaned_snapshots`) is threaded explicitly through
a `Manager` record, and provider calls are recorded in trace fields so
that "no remote lookup was issued" is a provable statement.  Exceptions
(`AzureError`, `IndexError` from list indexing, `ValueError` from JSON
parsing) are modelled with `Except`.
-/

/-- Python exception kinds relevant to this code base. -/
inductive PyErr where
  | azureError
  | indexError
  | valueError
deriving DecidableEq, Repr

/-- A subscription as returned by `get_subscriptions`: id and display name. -/
structure Subscription where
  id : String
  name : String
deriving DecidableEq, Repr

/-- A naive UTC datetime, enough to embed `strftime` formatting. -/
structure PyDateTime where
  year : Nat
  month : Nat
  day : Nat
  hour : Nat
  minute : Nat
  second : Nat
deriving DecidableEq, Repr

/-- A snapshot as observed from the provider.  Optional fields model the
duck-typed attribute checks in the source (`hasattr` / truthiness):
`source_resource_id = none` covers a missing `creation_data` or missing
`source_resource_id` attribute, `disk_size_gb = none` a missing size,
`time_created = none` a missing or null creation time, `tags = none`
missing or null tags. -/
structure Snapshot where
  id : String
  name : String
  source_resource_id : Option String
  disk_size_gb : Option Nat
  time_created : Option PyDateTime
  tags : Option (List (String × String))
deriving DecidableEq, Repr

/-- The orphan record dictionary built in `find_orphaned_snapshots`. -/
structure OrphanRecord where
  subscription_id : String
  subscription_name : String
  resource_group : String
  name : String
  id : String
  source_disk_id : String
  size_gb : Nat
  created_time : String
  tags : List (String × String)
deriving DecidableEq, Repr

/-- The mutable state of an `AzureSnapshotManager` instance, plus two
instrumentation traces (`diskLookups` for `disks.get` calls, `deleteCalls`
for `snapshots.begin_delete` calls) so that "no provider call was issued"
is expressible. -/
structure Manager where
  specific_subscription_id : Option String
  diskCache : List (String × Bool)
  orphaned_snapshots : List OrphanRecord
  diskLookups : List (String × String × String)
  deleteCalls : List (String × String × String)
deriving DecidableEq, Repr

/-- A freshly constructed manager: empty caches and result set. -/
def Manager.init (scope : Option String) : Manager :=
  { specific_subscription_id := scope
    diskCache := []
    orphaned_snapshots := []
    diskLookups := []
    deleteCalls := [] }

/-- Oracle for `compute_client.disks.get(resource_group, disk_name)` in a
subscription: `true` means the call succeeds, `false` that it raises
`AzureError` (including genuine not-found). -/
abbrev DiskOracle := String → String → String → Bool

/-- Embedding of Python single-character `str.split`: split the character
list on each occurrence of the separator, keeping empty pieces (so a
leading `/` yields a leading empty segment, as in Python). -/
def pySplit (s : String) (sep : Char) : List String :=
  (s.data.splitOn sep).map (fun l => String.mk l)

/-- The cache key `subscription_id ++ ":" ++ source_resource_id` from
`disk_exists`. -/
def cacheKey (subId rid : String) : String := subId ++ ":" ++ rid

/-- Embedding of `AzureSnapshotManager.disk_exists`: check the cache, else
parse the resource id by splitting on `/`; fewer than 9 segments or wrong
literals at indices 6 and 7 means invalid (cache and return false, no
provider call); otherwise issue `disks.get` with segments 4 and 8 and
cache the outcome, where any provider error is absorbed into `false`. -/
def disk_exists (dg : DiskOracle) (m : Manager) (subId rid : String) :
    Bool × Manager :=
  let key := cacheKey subId rid
  match m.diskCache.lookup key with
  | some b => (b, m)
  | none =>
    let parts := pySplit rid '/'
    if parts.length < 9 ∨ parts.getD 6 "" ≠ "Microsoft.Compute" ∨
        parts.getD 7 "" ≠ "disks" then
      (false, { m with diskCache := (key, false) :: m.diskCache })
    else
      let rg := parts.getD 4 ""
      let nm := parts.getD 8 ""
      let b := dg subId rg nm
      (b, { m with diskCache := (key, b) :: m.diskCache,
                   diskLookups := m.diskLookups ++ [(subId, rg, nm)] })

/-- The cache-free meaning of a disk-existence check against a fixed
oracle: the value `disk_exists` computes on a cache miss. -/
def diskExistsPure (dg : DiskOracle) (subId rid : String) : Bool :=
  let parts := pySplit rid '/'
  if parts.length < 9 ∨ parts.getD 6 "" ≠ "Microsoft.Compute" ∨
      parts.getD 7 "" ≠ "disks" then
    false
  else dg subId (parts.getD 4 "") (parts.getD 8 "")

/-- Zero-pad the decimal representation of `n` to width `w`. -/
def padNum (w n : Nat) : String :=
  String.mk (List.replicate (w - (toString n).length) '0') ++ toString n

/-- Embedding of `strftime` with format `%Y-%m-%d %H:%M:%S UTC`. -/
def formatTimestamp (t : PyDateTime) : String :=
  padNum 4 t.year ++ "-" ++ padNum 2 t.month ++ "-" ++ padNum 2 t.day ++ " " ++
  padNum 2 t.hour ++ ":" ++ padNum 2 t.minute ++ ":" ++ padNum 2 t.second ++ " UTC"

/-- The orphan dictionary built at lines 187-197 of the source, assuming
the resource-group index access succeeded: size defaults to 0 when the
size attribute is absent, creation time formats to the strftime string or
the literal sentinel, tags default to the empty mapping when absent or
empty (Python truthiness). -/
def mkOrphanRecord (sub : Subscription) (snap : Snapshot) (srcId : String) :
    OrphanRecord :=
  { subscription_id := sub.id
    subscription_name := sub.name
    resource_group := (pySplit snap.id '/').getD 4 ""
    name := snap.name
    id := snap.id
    source_disk_id := srcId
    size_gb := snap.disk_size_gb.getD 0
    created_time :=
      match snap.time_created with
      | some t => formatTimestamp t
      | none => "Unknown"
    tags :=
      match snap.tags with
      | some ts => if ts.isEmpty then [] else ts
      | none => [] }

/-- Building the record in Python indexes `snapshot.id.split('/')[4]`,
which raises `IndexError` when the snapshot's own id has fewer than 5
segments; that exception is not an `AzureError` and is not caught. -/
def buildOrphanRecord (sub : Subscription) (snap : Snapshot) (srcId : String) :
    Except PyErr OrphanRecord :=
  match (pySplit snap.id '/')[4]? with
  | none => .error .indexError
  | some _ => .ok (mkOrphanRecord sub snap srcId)

/-- The provider-side oracle for one invocation: subscription resolution
(`get_subscriptions`, given the manager's configured scope), snapshot
listing per subscription id, disk lookup, deletion outcome per
(subscription id, resource group, snapshot name), credential construction
and storage availability.  `Except Unit` failures stand for `AzureError`. -/
structure World where
  getSubscriptions : Option String → Except Unit (List Subscription)
  listSnapshots : String → Except Unit (List Snapshot)
  diskGet : DiskOracle
  deleteOk : String → String → String → Bool
  credentialOk : Bool
  storageOk : Bool

/-- One iteration of the inner snapshot loop of `find_orphaned_snapshots`:
skip snapshots without a truthy `creation_data.source_resource_id`, call
`disk_exists`, and append an orphan record when the source disk is gone.
The record construction can raise `IndexError`. -/
def processSnapshot (dg : DiskOracle) (sub : Subscription) (snap : Snapshot)
    (m : Manager) : Except PyErr Manager :=
  match snap.source_resource_id with
  | none => .ok m
  | some srcId =>
    if srcId = "" then .ok m
    else
      match disk_exists dg m sub.id srcId with
      | (true, m1) => .ok m1
      | (false, m1) =>
        match buildOrphanRecord sub snap srcId with
        | .error e => .error e
        | .ok r => .ok { m1 with orphaned_snapshots := m1.orphaned_snapshots ++ [r] }

/-- The inner snapshot loop, in listing order. -/
def processSnapshots (dg : DiskOracle) (sub : Subscription) :
    List Snapshot → Manager → Except PyErr Manager
  | [], m => .ok m
  | snap :: rest, m =>
    match processSnapshot dg sub snap m with
    | .error e => .error e
    | .ok m1 => processSnapshots dg sub rest m1

/-- One subscription of `find_orphaned_snapshots`: an `AzureError` from the
snapshot listing is caught and logged, leaving the state unchanged; any
other exception from the loop body escapes the handler. -/
def scanSubscription (w : World) (sub : Subscription) (m : Manager) :
    Except PyErr Manager :=
  match w.listSnapshots sub.id with
  | .error _ => .ok m
  | .ok snaps => processSnapshots w.diskGet sub snaps m

/-- The outer subscription loop, in provider order. -/
def findLoop (w : World) : List Subscription → Manager → Except PyErr Manager
  | [], m => .ok m
  | sub :: rest, m =>
    match scanSubscription w sub m with
    | .error e => .error e
    | .ok m1 => findLoop w rest m1

/-- Embedding of `AzureSnapshotManager.find_orphaned_snapshots`: reset the
working result list, resolve the subscriptions (a failure there is an
uncaught `AzureError`), scan them in order, and return the accumulated
orphan list together with the final manager state. -/
def find_orphaned_snapshots (w : World) (m : Manager) :
    Except PyErr (List OrphanRecord × Manager) :=
  match w.getSubscriptions m.specific_subscription_id with
  | .error _ => .error .azureError
  | .ok subs =>
    match findLoop w subs { m with orphaned_snapshots := [] } with
    | .error e => .error e
    | .ok m1 => .ok (m1.orphaned_snapshots, m1)

/-- Specification-level orphan test of a single observed snapshot against
the pure disk-existence semantics: `some record` exactly when the snapshot
declares a non-empty source-disk id whose disk does not exist. -/
def snapshotOrphan (dg : DiskOracle) (sub : Subscription) (snap : Snapshot) :
    Option OrphanRecord :=
  match snap.source_resource_id with
  | none => none
  | some srcId =>
    if srcId = "" then none
    else if diskExistsPure dg sub.id srcId then none
    else some (mkOrphanRecord sub snap srcId)

/-- The orphan records contributed by one subscription: none when its
listing fails, otherwise the qualifying snapshots in listing order. -/
def subscriptionOrphans (w : World) (sub : Subscription) : List OrphanRecord :=
  match w.listSnapshots sub.id with
  | .error _ => []
  | .ok snaps => snaps.filterMap (snapshotOrphan w.diskGet sub)

/-- The orphan list a scan should produce over the given subscriptions. -/
def orphanSpec (w : World) (subs : List Subscription) : List OrphanRecord :=
  (subs.map (subscriptionOrphans w)).flatten

/-- The deletion loop of `delete_orphaned_snapshots`, over the current
orphan result set in list order.  A dry run counts a success without any
provider call; otherwise `begin_delete` is issued (recorded in the
`deleteCalls` trace) and an `AzureError` is counted as a failure, with no
early exit. -/
def deleteLoop (ok : String → String → String → Bool) (dry_run : Bool) :
    List OrphanRecord → Nat → Nat → Manager → Nat × Nat × Manager
  | [], succ, failed, m => (succ, failed, m)
  | r :: rest, succ, failed, m =>
    if dry_run then deleteLoop ok dry_run rest (succ + 1) failed m
    else
      let m1 := { m with deleteCalls :=
        m.deleteCalls ++ [(r.subscription_id, r.resource_group, r.name)] }
      if ok r.subscription_id r.resource_group r.name then
        deleteLoop ok dry_run rest (succ + 1) failed m1
      else deleteLoop ok dry_run rest succ (failed + 1) m1

/-- Embedding of `AzureSnapshotManager.delete_orphaned_snapshots`: empty
result set short-circuits to `(0, 0)`; otherwise iterate the result set.
The orphan list itself is never modified. -/
def delete_orphaned_snapshots (ok : String → String → String → Bool)
    (m : Manager) (dry_run : Bool) : Nat × Nat × Manager :=
  if m.orphaned_snapshots.isEmpty then (0, 0, m)
  else deleteLoop ok dry_run m.orphaned_snapshots 0 0 m

/-- Embedding of `export_to_storage`, abstracted to the serialized
content: `none` on an empty result set (no artifact) or on any storage
failure (all failures are swallowed), otherwise the full current orphan
list as written into the report blob. -/
def export_to_storage (storageOk : Bool) (m : Manager) :
    Option (List OrphanRecord) :=
  if m.orphaned_snapshots.isEmpty then none
  else if storageOk then some m.orphaned_snapshots else none

/-- The environment variables read by `main`; `none` means unset. -/
structure Env where
  SUBSCRIPTION_ID : Option String := none
  MANAGED_IDENTITY_CLIENT_ID : Option String := none
  ENABLE_DELETION : Option String := none
  DRY_RUN : Option String := none
  LOG_LEVEL : Option String := none
  STORAGE_CONNECTION_STRING : Option String := none
  STORAGE_CONTAINER_NAME : Option String := none

/-- The recognized fields of the JSON request body; `none` means absent. -/
structure ReqBody where
  subscriptionId : Option String := none
  enableDeletion : Option Bool := none
  dryRun : Option Bool := none

/-- An incoming HTTP request body: empty (`get_body()` falsy), non-empty
but not valid JSON (`get_json()` raises `ValueError`), or parsed JSON. -/
inductive Request where
  | emptyBody
  | invalidJson
  | jsonBody (b : ReqBody)

/-- Line 328 of the source: `req.get_json() if req.get_body() else ⦃⦄`. -/
def parseBody : Request → Except PyErr ReqBody
  | .emptyBody => .ok {}
  | .invalidJson => .error .valueError
  | .jsonBody b => .ok b

/-- Boolean environment flag: `os.environ.get(name, default).lower() ==
"true"`. -/
def envFlag (v : Option String) (default : String) : Bool :=
  (v.getD default).toLower == "true"

/-- Python truthiness of an optional string (unset or empty is falsy). -/
def truthyOpt : Option String → Bool
  | none => false
  | some s => s != ""

/-- The resolved subscription scope: the body field when present,
otherwise the environment variable. -/
def resolveSubscription (env : Env) (body : ReqBody) : Option String :=
  match body.subscriptionId with
  | some s => some s
  | none => env.SUBSCRIPTION_ID

/-- The effective deletion-enablement flag: environment-derived (default
false) overridden by the request-body field when present. -/
def effEnableDeletion (env : Env) (body : ReqBody) : Bool :=
  body.enableDeletion.getD (envFlag env.ENABLE_DELETION "false")

/-- The effective dry-run flag: environment-derived (default true)
overridden by the request-body field when present. -/
def effDryRun (env : Env) (body : ReqBody) : Bool :=
  body.dryRun.getD (envFlag env.DRY_RUN "true")

/-- The deletion sub-object of the response summary. -/
structure DeletionSummary where
  dryRun : Bool
  successful : Nat
  failed : Nat
deriving DecidableEq, Repr

/-- The HTTP 200 response summary. -/
structure Summary where
  orphanedSnapshotsCount : Nat
  totalSizeGB : Nat
  subscriptionId : String
  deletion : Option DeletionSummary
  reportUrl : Bool
deriving DecidableEq, Repr

/-- The observable outcome of one invocation of `main`: HTTP status,
whether the JSON body carries an `error` field, the success summary, and
how far the invocation got (`managerConstructed` is false when the
failure predates credential and manager construction; `finalManager` is
the manager state on the success path). -/
structure MainResult where
  status : Nat
  errorField : Bool
  summary : Option Summary
  managerConstructed : Bool
  finalManager : Option Manager
deriving DecidableEq, Repr

/-- Line 350 of the source:
`sum(s['size_gb'] for s in orphaned_snapshots if s['size_gb'])` —
the truthiness filter drops zero sizes before summing. -/
def pySumSizes (l : List OrphanRecord) : Nat :=
  ((l.filter (fun r => r.size_gb != 0)).map (fun r => r.size_gb)).sum

/-- The summary `main` always builds after the scan (lines 347-352): count
of orphan records, truthiness-filtered size sum, and the scope string with
Python truthiness (`None` or the empty string become `"all"`). -/
def baseSummary (subscription_id : Option String) (orphans : List OrphanRecord) :
    Summary :=
  { orphanedSnapshotsCount := orphans.length
    totalSizeGB := pySumSizes orphans
    subscriptionId :=
      match subscription_id with
      | some s => if s = "" then "all" else s
      | none => "all"
    deletion := none
    reportUrl := false }

/-- Lines 354-361: run deletion when `enable_deletion or not dry_run` and
attach its dry-run flag and counts under the `deletion` key. -/
def deletionStep (delOk : String → String → String → Bool)
    (enable_deletion dry_run : Bool) (base : Summary) (m1 : Manager) :
    Summary × Manager :=
  if enable_deletion || !dry_run then
    ({ base with
        deletion := some ⟨dry_run,
          (delete_orphaned_snapshots delOk m1 dry_run).1,
          (delete_orphaned_snapshots delOk m1 dry_run).2.1⟩ },
     (delete_orphaned_snapshots delOk m1 dry_run).2.2)
  else (base, m1)

/-- Lines 363-371: export when both storage settings are truthy and mark
the summary only when an artifact was produced. -/
def exportStep (env : Env) (storageOk : Bool) (sm : Summary × Manager) :
    Summary :=
  if truthyOpt env.STORAGE_CONNECTION_STRING &&
      (env.STORAGE_CONTAINER_NAME.getD "snapshot-reports" != "") then
    match export_to_storage storageOk sm.2 with
    | some _ => { sm.1 with reportUrl := true }
    | none => sm.1
  else sm.1

/-- Embedding of the `main` entry point: read configuration, parse the
body (a `ValueError` escapes to the top-level handler before the
credential exists), construct the credential and a fresh manager, scan,
always build the summary, run deletion when `enable_deletion or not
dry_run`, export when the storage settings are truthy, and answer 200;
any uncaught exception yields 500 with an `error` field. -/
def mainModel (env : Env) (req : Request) (w : World) : MainResult :=
  match parseBody req with
  | .error _ =>
    { status := 500, errorField := true, summary := none,
      managerConstructed := false, finalManager := none }
  | .ok body =>
    let subscription_id := resolveSubscription env body
    let enable_deletion := effEnableDeletion env body
    let dry_run := effDryRun env body
    if !w.credentialOk then
      { status := 500, errorField := true, summary := none,
        managerConstructed := false, finalManager := none }
    else
      match find_orphaned_snapshots w (Manager.init subscription_id) with
      | .error _ =>
        { status := 500, errorField := true, summary := none,
          managerConstructed := true, finalManager := none }
      | .ok (orphans, m1) =>
        let sm := deletionStep w.deleteOk enable_deletion dry_run
          (baseSummary subscription_id orphans) m1
        { status := 200, errorField := false,
          summary := some (exportStep env w.storageOk sm),
          managerConstructed := true, finalManager := some sm.2 }

/-- The record triple `begin_delete` is called with. -/
def deleteTriple (r : OrphanRecord) : String × String × String :=
  (r.subscription_id, r.resource_group, r.name)

/-- A string without the `:` separator character (true of every Azure
subscription id, which is a GUID). -/
def colonFree (s : String) : Prop := ':' ∉ s.data

/-- The disk cache is consistent with the pure semantics: every memoized
boolean for a colon-free subscription id equals the cache-free check. -/
def cacheGood (dg : DiskOracle) (m : Manager) : Prop :=
  ∀ subId rid b, colonFree subId →
    m.diskCache.lookup (cacheKey subId rid) = some b →
    b = diskExistsPure dg subId rid

/-- Concrete orphan record used by witnesses. -/
def recA : OrphanRecord :=
  { subscription_id := "sub1", subscription_name := "Sub One",
    resource_group := "rg1", name := "snapA",
    id := "/subscriptions/sub1/resourceGroups/rg1/providers/Microsoft.Compute/snapshots/snapA",
    source_disk_id := "/subscriptions/sub1/resourceGroups/rg1/providers/Microsoft.Compute/disks/dA",
    size_gb := 10, created_time := "Unknown", tags := [] }

/-- Concrete orphan record used by witnesses. -/
def recB : OrphanRecord :=
  { subscription_id := "sub1", subscription_name := "Sub One",
    resource_group := "rg1", name := "snapB",
    id := "/subscriptions/sub1/resourceGroups/rg1/providers/Microsoft.Compute/snapshots/snapB",
    source_disk_id := "/subscriptions/sub1/resourceGroups/rg1/providers/Microsoft.Compute/disks/dB",
    size_gb := 25, created_time := "2024-01-02 03:04:05 UTC", tags := [("env", "dev")] }

/-- A zero-size (unreported) orphan record for the summary arithmetic. -/
def recZero : OrphanRecord := { recA with name := "snapZ", size_gb := 0 }

/-- A manager holding two orphan records, as after a scan. -/
def mgrTwo : Manager :=
  { Manager.init none with orphaned_snapshots := [recA, recB] }

/-- The subscription every witness world exposes. -/
def subW : Subscription := { id := "sub1", name := "Sub One" }

/-- A second subscription for the abort scenario. -/
def subW2 : Subscription := { id := "sub2", name := "Sub Two" }

/-- Resource id of a disk that still exists in the witness world. -/
def diskIdLive : String :=
  "/subscriptions/sub1/resourceGroups/rg1/providers/Microsoft.Compute/disks/live"

/-- Resource id of a deleted disk in the witness world. -/
def diskIdGone : String :=
  "/subscriptions/sub1/resourceGroups/rg1/providers/Microsoft.Compute/disks/gone"

/-- A snapshot with no source-disk reference (never an orphan). -/
def snapNoSrc : Snapshot :=
  { id := "/subscriptions/sub1/resourceGroups/rg1/providers/Microsoft.Compute/snapshots/s0",
    name := "s0", source_resource_id := none, disk_size_gb := some 7,
    time_created := none, tags := none }

/-- A snapshot whose source disk still exists (not an orphan). -/
def snapLive : Snapshot :=
  { id := "/subscriptions/sub1/resourceGroups/rg1/providers/Microsoft.Compute/snapshots/s1",
    name := "s1", source_resource_id := some diskIdLive, disk_size_gb := some 10,
    time_created := none, tags := none }

/-- An orphaned snapshot: unreported size, reported creation time, tags. -/
def snapGone : Snapshot :=
  { id := "/subscriptions/sub1/resourceGroups/rg1/providers/Microsoft.Compute/snapshots/s2",
    name := "s2", source_resource_id := some diskIdGone, disk_size_gb := none,
    time_created := some ⟨2024, 1, 2, 3, 4, 5⟩, tags := some [("env", "dev")] }

/-- A snapshot whose own id has fewer than 5 segments: building its
orphan record indexes `id.split('/')[4]` and raises `IndexError`. -/
def snapBadId : Snapshot :=
  { id := "short-id", name := "bad", source_resource_id := some diskIdGone,
    disk_size_gb := some 5, time_created := none, tags := none }

/-- Witness world: one subscription, three snapshots, only the disk named
`live` still present. -/
def worldC1 : World :=
  { getSubscriptions := fun _ => .ok [subW]
    listSnapshots := fun _ => .ok [snapNoSrc, snapLive, snapGone]
    diskGet := fun _ _ nm => nm == "live"
    deleteOk := fun _ _ _ => true
    credentialOk := true
    storageOk := true }

/-- World for C9: the first subscription yields the ill-formed snapshot;
the second would yield an ordinary orphan, but is never reached. -/
def worldC9 : World :=
  { getSubscriptions := fun _ => .ok [subW, subW2]
    listSnapshots := fun s => if s == "sub1" then .ok [snapBadId] else .ok [snapGone]
    diskGet := fun _ _ _ => false
    deleteOk := fun _ _ _ => true
    credentialOk := true
    storageOk := false }

/-- The final manager state of the witness scan. -/
def mgrC1 : Manager :=
  { specific_subscription_id := none
    diskCache := [(cacheKey "sub1" diskIdGone, false), (cacheKey "sub1" diskIdLive, true)]
    orphaned_snapshots := [mkOrphanRecord subW snapGone diskIdGone]
    diskLookups := [("sub1", "rg1", "live"), ("sub1", "rg1", "gone")]
    deleteCalls := [] }

/-- The request body of property 7 of the spec: deletion not enabled,
dry-run explicitly false. -/
def bodyC3 : ReqBody :=
  { subscriptionId := none, enableDeletion := some false, dryRun := some false }

example :
    (pySplit "/subscriptions/s/resourceGroups/rg/providers/Microsoft.Compute/disks/d1" '/').length = 9 := by
  decide

example : diskExistsPure (fun _ _ _ => true) "s" "/too/short" = false := by decide

example :
    diskExistsPure (fun _ rg nm => rg = "rg" && nm = "d1") "s"
      "/subscriptions/s/resourceGroups/rg/providers/Microsoft.Compute/disks/d1" = true := by
  decide

/-! ## Basic lemmas about the disk-existence check -/

/-- A cache hit returns the memoized value and leaves the state alone. -/
lemma disk_exists_hit (dg : DiskOracle) (m : Manager) (S R : String) (b : Bool)
    (h : m.diskCache.lookup (cacheKey S R) = some b) :
    disk_exists dg m S R = (b, m) := by
  simp [disk_exists, h]

/-- After any call, the computed value is memoized under the call's key. -/
lemma disk_exists_memoizes (dg : DiskOracle) (m : Manager) (S R : String) :
    (disk_exists dg m S R).2.diskCache.lookup (cacheKey S R) =
      some (disk_exists dg m S R).1 := by
  unfold disk_exists
  cases h : m.diskCache.lookup (cacheKey S R) with
  | some b => simp [h]
  | none =>
    simp only [h]
    split
    · simp [List.lookup]
    · simp [List.lookup]

/-- `disk_exists` never touches the orphan result set, the configured
scope, or the deletion trace. -/
lemma disk_exists_frame (dg : DiskOracle) (m : Manager) (S R : String) :
    (disk_exists dg m S R).2.orphaned_snapshots = m.orphaned_snapshots ∧
    (disk_exists dg m S R).2.specific_subscription_id = m.specific_subscription_id ∧
    (disk_exists dg m S R).2.deleteCalls = m.deleteCalls := by
  unfold disk_exists
  cases h : m.diskCache.lookup (cacheKey S R) with
  | some b => simp [h]
  | none => simp only [h]; split <;> simp

/-- C5: two consecutive `disk_exists` calls with the same subscription id
and resource id return the same boolean, and the second call leaves the
manager state (in particular the provider-lookup trace) untouched: the
value memoized under the cache key is returned immediately. -/
theorem claim_C5_cache_idempotent (dg : DiskOracle) (m : Manager) (S R : String) :
    (disk_exists dg m S R).2.diskCache.lookup (cacheKey S R) =
      some (disk_exists dg m S R).1 ∧
    disk_exists dg (disk_exists dg m S R).2 S R = disk_exists dg m S R := by
  refine ⟨disk_exists_memoizes dg m S R, ?_⟩
  exact disk_exists_hit dg (disk_exists dg m S R).2 S R (disk_exists dg m S R).1
    (disk_exists_memoizes dg m S R)

/-- C2: on a first call, a malformed resource id (fewer than 9 segments,
or wrong literals at indices 6 and 7) makes `disk_exists` return false,
record false in the cache under the composite key, and issue no provider
lookup (the lookup trace in the resulting state is unchanged); no
exception is raised since the function is total. -/
theorem claim_C2_malformed_id (dg : DiskOracle) (m : Manager) (S R : String)
    (hmal : (pySplit R '/').length < 9 ∨
      (pySplit R '/').getD 6 "" ≠ "Microsoft.Compute" ∨
      (pySplit R '/').getD 7 "" ≠ "disks")
    (hnew : m.diskCache.lookup (cacheKey S R) = none) :
    disk_exists dg m S R =
      (false, { m with diskCache := (cacheKey S R, false) :: m.diskCache }) := by
  simp only [disk_exists, hnew]
  rw [if_pos hmal]

/-- Witness for C2: the two-segment id `"/too/short"` on a fresh manager. -/
theorem claim_C2_witness :
    disk_exists (fun _ _ _ => true) (Manager.init none) "s" "/too/short" =
      (false, { Manager.init none with
        diskCache := [(cacheKey "s" "/too/short", false)] }) :=
  claim_C2_malformed_id (fun _ _ _ => true) (Manager.init none) "s" "/too/short"
    (by decide) (by decide)

/-! ## Deletion lemmas -/

/-- A dry-run pass counts every record as a success and leaves the state
(and thus the delete-call trace) untouched. -/
lemma deleteLoop_dry (ok : String → String → String → Bool)
    (l : List OrphanRecord) :
    ∀ succ failed m, deleteLoop ok true l succ failed m =
      (succ + l.length, failed, m) := by
  induction l with
  | nil => intro succ failed m; simp [deleteLoop]
  | cons r rest ih =>
    intro succ failed m
    simp only [deleteLoop, if_pos rfl, ih, List.length_cons]
    exact congrArg (fun n => (n, failed, m)) (by omega)

/-- A real pass succeeds on exactly the records the provider accepts,
fails on the rest, and appends one delete call per record in list order. -/
lemma deleteLoop_wet (ok : String → String → String → Bool)
    (l : List OrphanRecord) :
    ∀ succ failed m, deleteLoop ok false l succ failed m =
      (succ + (l.filter (fun r => ok r.subscription_id r.resource_group r.name)).length,
       failed + (l.filter (fun r => !(ok r.subscription_id r.resource_group r.name))).length,
       { m with deleteCalls := m.deleteCalls ++ l.map deleteTriple }) := by
  induction l with
  | nil => intro succ failed m; simp [deleteLoop]
  | cons r rest ih =>
    intro succ failed m
    cases hok : ok r.subscription_id r.resource_group r.name <;>
      simp [deleteLoop, hok, ih, List.filter_cons, deleteTriple, Prod.mk.injEq,
        List.append_assoc] <;>
      omega

/-- Splitting a list by a predicate preserves total length. -/
lemma length_filter_add_not (p : OrphanRecord → Bool) (l : List OrphanRecord) :
    (l.filter p).length + (l.filter (fun r => !(p r))).length = l.length := by
  induction l with
  | nil => simp
  | cons r rest ih => cases h : p r <;> simp [List.filter_cons, h] <;> omega

/-- `delete_orphaned_snapshots` in dry-run mode: every record is counted
as a success, none as a failure, and the manager (in particular its
delete-call trace) is unchanged. -/
lemma delete_dry (ok : String → String → String → Bool) (m : Manager) :
    delete_orphaned_snapshots ok m true = (m.orphaned_snapshots.length, 0, m) := by
  obtain ⟨sid, cache, orph, lkps, dels⟩ := m
  unfold delete_orphaned_snapshots
  split
  · rename_i h
    rw [List.isEmpty_iff.mp h]
    rfl
  · simp [deleteLoop_dry]

/-- `delete_orphaned_snapshots` in real mode: the counts are the filter
lengths and every record is attempted, in list order. -/
lemma delete_wet (ok : String → String → String → Bool) (m : Manager) :
    delete_orphaned_snapshots ok m false =
      ((m.orphaned_snapshots.filter
          (fun r => ok r.subscription_id r.resource_group r.name)).length,
       (m.orphaned_snapshots.filter
          (fun r => !(ok r.subscription_id r.resource_group r.name))).length,
       { m with deleteCalls :=
          m.deleteCalls ++ m.orphaned_snapshots.map deleteTriple }) := by
  obtain ⟨sid, cache, orph, lkps, dels⟩ := m
  unfold delete_orphaned_snapshots
  split
  · rename_i h
    have hc : orph = [] := List.isEmpty_iff.mp h
    subst hc
    simp
  · simp [deleteLoop_wet]

/-- C4: over the current orphan result set of length N, a dry run returns
(N, 0) with no provider delete call; a real run attempts every record in
list order (the delete-call trace is extended by exactly the N record
triples), succeeds on exactly the records the provider accepts and fails
on the rest, so `failed` is the failing subset's size and `successful` is
N minus that size; when every delete succeeds the result is (N, 0) with
exactly N calls. -/
theorem claim_C4_delete_counts (ok : String → String → String → Bool) (m : Manager) :
    delete_orphaned_snapshots ok m true = (m.orphaned_snapshots.length, 0, m) ∧
    (delete_orphaned_snapshots ok m false).2.1 =
      (m.orphaned_snapshots.filter
        (fun r => !(ok r.subscription_id r.resource_group r.name))).length ∧
    (delete_orphaned_snapshots ok m false).1 =
      m.orphaned_snapshots.length - (delete_orphaned_snapshots ok m false).2.1 ∧
    (delete_orphaned_snapshots ok m false).2.2 =
      { m with deleteCalls :=
        m.deleteCalls ++ m.orphaned_snapshots.map deleteTriple } ∧
    ((∀ r ∈ m.orphaned_snapshots,
        ok r.subscription_id r.resource_group r.name = true) →
      delete_orphaned_snapshots ok m false =
        (m.orphaned_snapshots.length, 0,
         { m with deleteCalls :=
            m.deleteCalls ++ m.orphaned_snapshots.map deleteTriple })) := by
  have hwet := delete_wet ok m
  have hsum := length_filter_add_not
    (fun r => ok r.subscription_id r.resource_group r.name) m.orphaned_snapshots
  refine ⟨delete_dry ok m, by rw [hwet], by rw [hwet]; simp; omega, by rw [hwet], ?_⟩
  intro hall
  rw [hwet, List.filter_eq_self.mpr hall,
    List.filter_eq_nil_iff.mpr (by intro r hr; simp [hall r hr])]
  simp

/-- Witness for C4: with an always-succeeding provider, a real run over
the two-record set deletes both in order. -/
theorem claim_C4_witness :
    delete_orphaned_snapshots (fun _ _ _ => true) mgrTwo false =
      (mgrTwo.orphaned_snapshots.length, 0,
       { mgrTwo with deleteCalls :=
          mgrTwo.deleteCalls ++ mgrTwo.orphaned_snapshots.map deleteTriple }) :=
  (claim_C4_delete_counts (fun _ _ _ => true) mgrTwo).2.2.2.2 (by decide)

/-- C8: deletion never modifies the orphan result set, in either mode, so
an export performed after deletion serializes exactly what an export
before deletion would have, including records just deleted. -/
theorem claim_C8_delete_preserves_orphans (ok : String → String → String → Bool)
    (m : Manager) (dry_run : Bool) (sOk : Bool) :
    (delete_orphaned_snapshots ok m dry_run).2.2.orphaned_snapshots =
      m.orphaned_snapshots ∧
    export_to_storage sOk (delete_orphaned_snapshots ok m dry_run).2.2 =
      export_to_storage sOk m := by
  have hpres : (delete_orphaned_snapshots ok m dry_run).2.2.orphaned_snapshots =
      m.orphaned_snapshots := by
    cases dry_run
    · rw [delete_wet]
    · rw [delete_dry]
  refine ⟨hpres, ?_⟩
  unfold export_to_storage
  rw [hpres]

/-! ## Cache consistency: the stateful check agrees with the pure one

The composite cache key concatenates the subscription id and the resource
id with a `:` separator, so it determines the pair uniquely as long as the
subscription id contains no colon (Azure subscription ids are GUIDs).  -/

/-- Splitting at the first occurrence of a distinguished absent element is
unambiguous. -/
lemma append_cons_inj {c : Char} :
    ∀ {l1 l2 t1 t2 : List Char}, c ∉ l1 → c ∉ l2 →
      l1 ++ c :: t1 = l2 ++ c :: t2 → l1 = l2 ∧ t1 = t2 := by
  intro l1
  induction l1 with
  | nil =>
    intro l2 t1 t2 _ h2 h
    cases l2 with
    | nil => simpa using h
    | cons a l2' =>
      simp only [List.nil_append, List.cons_append, List.cons.injEq] at h
      exact absurd (h.1 ▸ List.mem_cons_self a l2') h2
  | cons a l1' ih =>
    intro l2 t1 t2 h1 h2 h
    cases l2 with
    | nil =>
      simp only [List.cons_append, List.nil_append, List.cons.injEq] at h
      exact absurd (h.1 ▸ List.mem_cons_self a l1') h1
    | cons b l2' =>
      simp only [List.cons_append, List.cons.injEq] at h
      obtain ⟨rfl, h'⟩ := h
      have := ih (fun hm => h1 (List.mem_cons_of_mem _ hm))
        (fun hm => h2 (List.mem_cons_of_mem _ hm)) h'
      exact ⟨by rw [this.1], this.2⟩

/-- For colon-free subscription ids the composite cache key is injective. -/
lemma cacheKey_inj {s1 r1 s2 r2 : String} (h1 : colonFree s1) (h2 : colonFree s2)
    (h : cacheKey s1 r1 = cacheKey s2 r2) : s1 = s2 ∧ r1 = r2 := by
  have hd : s1.data ++ ':' :: r1.data = s2.data ++ ':' :: r2.data := by
    have := congrArg String.data h
    simpa [cacheKey, String.data_append] using this
  obtain ⟨hs, hr⟩ := append_cons_inj h1 h2 hd
  exact ⟨String.ext hs, String.ext hr⟩

/-- A fresh manager's empty cache is vacuously consistent. -/
lemma cacheGood_init (dg : DiskOracle) (scope : Option String) :
    cacheGood dg (Manager.init scope) := by
  intro subId rid b _ h
  simp [Manager.init, List.lookup] at h

/-- Consistency only depends on the disk cache. -/
lemma cacheGood_congr {dg : DiskOracle} {m m' : Manager}
    (h : m'.diskCache = m.diskCache) (hm : cacheGood dg m) : cacheGood dg m' := by
  intro subId rid b hcf hl
  exact hm subId rid b hcf (h ▸ hl)

/-- The pure check on a malformed id is false. -/
lemma diskExistsPure_invalid (dg : DiskOracle) (S R : String)
    (hmal : (pySplit R '/').length < 9 ∨
      (pySplit R '/').getD 6 "" ≠ "Microsoft.Compute" ∨
      (pySplit R '/').getD 7 "" ≠ "disks") :
    diskExistsPure dg S R = false := by
  simp only [diskExistsPure]
  rw [if_pos hmal]

/-- The pure check on a well-formed id consults the oracle with segments
4 and 8. -/
lemma diskExistsPure_valid (dg : DiskOracle) (S R : String)
    (hmal : ¬((pySplit R '/').length < 9 ∨
      (pySplit R '/').getD 6 "" ≠ "Microsoft.Compute" ∨
      (pySplit R '/').getD 7 "" ≠ "disks")) :
    diskExistsPure dg S R =
      dg S ((pySplit R '/').getD 4 "") ((pySplit R '/').getD 8 "") := by
  simp only [diskExistsPure]
  rw [if_neg hmal]

/-- Looking up the key just inserted returns its value. -/
lemma lookup_cons_self (k : String) (v : Bool) (l : List (String × Bool)) :
    List.lookup k ((k, v) :: l) = some v := by
  simp [List.lookup]

/-- Looking up a different key skips the inserted entry. -/
lemma lookup_cons_ne (k k' : String) (hne : k' ≠ k) (v : Bool)
    (l : List (String × Bool)) :
    List.lookup k' ((k, v) :: l) = List.lookup k' l := by
  simp [List.lookup, beq_eq_false_iff_ne.mpr hne]

/-- On a consistent cache and a colon-free subscription id, `disk_exists`
returns exactly the pure existence value and preserves consistency. -/
lemma disk_exists_good (dg : DiskOracle) (m : Manager) (S R : String)
    (hcf : colonFree S) (hm : cacheGood dg m) :
    (disk_exists dg m S R).1 = diskExistsPure dg S R ∧
    cacheGood dg (disk_exists dg m S R).2 := by
  unfold disk_exists
  cases h : m.diskCache.lookup (cacheKey S R) with
  | some b =>
    simp only [h]
    exact ⟨hm S R b hcf h, hm⟩
  | none =>
    simp only [h]
    split
    · rename_i hmal
      refine ⟨by rw [diskExistsPure_invalid dg S R hmal], ?_⟩
      intro subId rid b hcf' hl
      by_cases hk : cacheKey subId rid = cacheKey S R
      · obtain ⟨rfl, rfl⟩ := cacheKey_inj hcf' hcf hk
        rw [lookup_cons_self] at hl
        have hb := Option.some.inj hl
        rw [← hb, diskExistsPure_invalid dg subId rid hmal]
      · rw [lookup_cons_ne _ _ hk] at hl
        exact hm subId rid b hcf' hl
    · rename_i hmal
      refine ⟨by rw [diskExistsPure_valid dg S R hmal], ?_⟩
      intro subId rid b hcf' hl
      by_cases hk : cacheKey subId rid = cacheKey S R
      · obtain ⟨rfl, rfl⟩ := cacheKey_inj hcf' hcf hk
        rw [lookup_cons_self] at hl
        have hb := Option.some.inj hl
        rw [← hb, diskExistsPure_valid dg subId rid hmal]
      · rw [lookup_cons_ne _ _ hk] at hl
        exact hm subId rid b hcf' hl

/-- One snapshot step of the scan: either it raises, or it extends the
orphan list by exactly the specification-level contribution of that
snapshot and keeps the cache consistent. -/
lemma processSnapshot_spec (dg : DiskOracle) (sub : Subscription)
    (snap : Snapshot) (m : Manager) (hcf : colonFree sub.id)
    (hm : cacheGood dg m) :
    (∃ e, processSnapshot dg sub snap m = .error e) ∨
    ∃ m', processSnapshot dg sub snap m = .ok m' ∧ cacheGood dg m' ∧
      m'.orphaned_snapshots =
        m.orphaned_snapshots ++ (snapshotOrphan dg sub snap).toList := by
  cases hsrc : snap.source_resource_id with
  | none =>
    right
    refine ⟨m, ?_, hm, by simp [snapshotOrphan, hsrc]⟩
    simp [processSnapshot, hsrc]
  | some srcId =>
    by_cases hemp : srcId = ""
    · right
      refine ⟨m, ?_, hm, by simp [snapshotOrphan, hsrc, hemp]⟩
      simp [processSnapshot, hsrc, hemp]
    · have hgood := disk_exists_good dg m sub.id srcId hcf hm
      have hframe := disk_exists_frame dg m sub.id srcId
      have hde : disk_exists dg m sub.id srcId =
          (diskExistsPure dg sub.id srcId, (disk_exists dg m sub.id srcId).2) := by
        rw [← hgood.1]
      cases hpure : diskExistsPure dg sub.id srcId with
      | true =>
        have hde2 : disk_exists dg m sub.id srcId =
            (true, (disk_exists dg m sub.id srcId).2) := by rw [hde, hpure]
        right
        refine ⟨(disk_exists dg m sub.id srcId).2, ?_, hgood.2,
          by simp [snapshotOrphan, hsrc, hemp, hpure, hframe.1]⟩
        simp only [processSnapshot, hsrc]
        rw [if_neg hemp, hde2]
      | false =>
        have hde2 : disk_exists dg m sub.id srcId =
            (false, (disk_exists dg m sub.id srcId).2) := by rw [hde, hpure]
        cases hbr : (pySplit snap.id '/')[4]? with
        | none =>
          left
          refine ⟨.indexError, ?_⟩
          simp only [processSnapshot, hsrc]
          rw [if_neg hemp, hde2]
          simp [buildOrphanRecord, hbr]
        | some rg =>
          right
          refine ⟨{ (disk_exists dg m sub.id srcId).2 with
              orphaned_snapshots := (disk_exists dg m sub.id srcId).2.orphaned_snapshots ++
                [mkOrphanRecord sub snap srcId] }, ?_,
            cacheGood_congr rfl hgood.2, ?_⟩
          · simp only [processSnapshot, hsrc]
            rw [if_neg hemp, hde2]
            simp [buildOrphanRecord, hbr]
          · simp [snapshotOrphan, hsrc, hemp, hpure, hframe.1]
/-- The inner snapshot loop: either some snapshot raises, or the orphan
list grows by exactly the qualifying snapshots, in listing order. -/
lemma processSnapshots_spec (dg : DiskOracle) (sub : Subscription)
    (snaps : List Snapshot) (hcf : colonFree sub.id) :
    ∀ m, cacheGood dg m →
      (∃ e, processSnapshots dg sub snaps m = .error e) ∨
      ∃ m', processSnapshots dg sub snaps m = .ok m' ∧ cacheGood dg m' ∧
        m'.orphaned_snapshots =
          m.orphaned_snapshots ++ snaps.filterMap (snapshotOrphan dg sub) := by
  induction snaps with
  | nil => intro m hm; right; exact ⟨m, rfl, hm, by simp⟩
  | cons snap rest ih =>
    intro m hm
    rcases processSnapshot_spec dg sub snap m hcf hm with ⟨e, he⟩ | ⟨m1, h1, hg1, ho1⟩
    · left
      exact ⟨e, by simp [processSnapshots, he]⟩
    · rcases ih m1 hg1 with ⟨e, he⟩ | ⟨m2, h2, hg2, ho2⟩
      · left
        exact ⟨e, by simp [processSnapshots, h1, he]⟩
      · right
        refine ⟨m2, by simp [processSnapshots, h1, h2], hg2, ?_⟩
        rw [ho2, ho1, List.filterMap_cons]
        cases snapshotOrphan dg sub snap <;> simp

/-- One subscription of the scan: a listing failure contributes nothing;
otherwise the contribution is the subscription's qualifying snapshots. -/
lemma scanSubscription_spec (w : World) (sub : Subscription) (m : Manager)
    (hcf : colonFree sub.id) (hm : cacheGood w.diskGet m) :
    (∃ e, scanSubscription w sub m = .error e) ∨
    ∃ m', scanSubscription w sub m = .ok m' ∧ cacheGood w.diskGet m' ∧
      m'.orphaned_snapshots =
        m.orphaned_snapshots ++ subscriptionOrphans w sub := by
  unfold scanSubscription subscriptionOrphans
  cases hls : w.listSnapshots sub.id with
  | error _ => right; exact ⟨m, rfl, hm, by simp⟩
  | ok snaps => exact processSnapshots_spec w.diskGet sub snaps hcf m hm

/-- The outer subscription loop accumulates the per-subscription
contributions in provider order, unless some snapshot raises. -/
lemma findLoop_spec (w : World) (subs : List Subscription)
    (hcf : ∀ sub ∈ subs, colonFree sub.id) :
    ∀ m, cacheGood w.diskGet m →
      (∃ e, findLoop w subs m = .error e) ∨
      ∃ m', findLoop w subs m = .ok m' ∧ cacheGood w.diskGet m' ∧
        m'.orphaned_snapshots = m.orphaned_snapshots ++ orphanSpec w subs := by
  induction subs with
  | nil => intro m hm; right; exact ⟨m, rfl, hm, by simp [orphanSpec]⟩
  | cons sub rest ih =>
    intro m hm
    rcases scanSubscription_spec w sub m (hcf sub (List.mem_cons_self sub rest)) hm with
      ⟨e, he⟩ | ⟨m1, h1, hg1, ho1⟩
    · left
      exact ⟨e, by simp [findLoop, he]⟩
    · rcases ih (fun s hs => hcf s (List.mem_cons_of_mem sub hs)) m1 hg1 with
        ⟨e, he⟩ | ⟨m2, h2, hg2, ho2⟩
      · left
        exact ⟨e, by simp [findLoop, h1, he]⟩
      · right
        refine ⟨m2, by simp [findLoop, h1, h2], hg2, ?_⟩
        rw [ho2, ho1]
        simp [orphanSpec, List.append_assoc]

/-- The scan refines its specification: when `find_orphaned_snapshots`
returns (no snapshot raised an uncaught exception) from a consistent
state, the returned list is exactly `orphanSpec` over the resolved
subscriptions, and it is also stored as the manager's result set. -/
lemma find_spec (w : World) (m : Manager) (subs : List Subscription)
    (res : List OrphanRecord) (m' : Manager)
    (hsubs : w.getSubscriptions m.specific_subscription_id = .ok subs)
    (hcf : ∀ sub ∈ subs, colonFree sub.id)
    (hm : cacheGood w.diskGet m)
    (hfind : find_orphaned_snapshots w m = .ok (res, m')) :
    res = orphanSpec w subs ∧ m'.orphaned_snapshots = res := by
  unfold find_orphaned_snapshots at hfind
  simp only [hsubs] at hfind
  have hm0 : cacheGood w.diskGet { m with orphaned_snapshots := [] } :=
    cacheGood_congr rfl hm
  rcases findLoop_spec w subs hcf { m with orphaned_snapshots := [] } hm0 with
    ⟨e, he⟩ | ⟨m1, h1, _, ho1⟩
  · simp [he] at hfind
  · simp only [h1, Except.ok.injEq, Prod.mk.injEq] at hfind
    obtain ⟨hres, hm'⟩ := hfind
    subst hm'
    refine ⟨?_, hres⟩
    rw [← hres, ho1]
    simp

/-- C1: the orphan list returned by a completed scan is exactly the
specification list: a snapshot observed during the scan contributes a
record if and only if it carries a non-empty source-disk resource id
whose disk does not exist (pure check) in the snapshot's subscription;
snapshots with no or empty source-disk reference never contribute, and
snapshots whose source disk exists are excluded.  Hypotheses: the
subscriptions resolve, their ids are colon-free (Azure GUIDs), the cache
starts consistent (true of the fresh manager `main` builds), and the scan
returned. -/
theorem claim_C1_orphan_membership (w : World) (m : Manager)
    (subs : List Subscription) (res : List OrphanRecord) (m' : Manager)
    (hsubs : w.getSubscriptions m.specific_subscription_id = .ok subs)
    (hcf : ∀ sub ∈ subs, colonFree sub.id)
    (hm : cacheGood w.diskGet m)
    (hfind : find_orphaned_snapshots w m = .ok (res, m')) :
    res = orphanSpec w subs :=
  (find_spec w m subs res m' hsubs hcf hm hfind).1

/-- C6: every record of a completed scan comes from an observed snapshot
with a non-empty source-disk id whose disk is gone, and its optional
fields are resolved to the defined defaults: `size_gb` is the reported
size and 0 exactly when the size is unreported, `tags` is empty when the
snapshot has none, and `created_time` is the formatted timestamp of the
reported creation time or the literal sentinel `"Unknown"` when none was
reported. -/
theorem claim_C6_record_defaults (w : World) (m : Manager)
    (subs : List Subscription) (res : List OrphanRecord) (m' : Manager)
    (hsubs : w.getSubscriptions m.specific_subscription_id = .ok subs)
    (hcf : ∀ sub ∈ subs, colonFree sub.id)
    (hm : cacheGood w.diskGet m)
    (hfind : find_orphaned_snapshots w m = .ok (res, m')) :
    ∀ r ∈ res, ∃ sub snap srcId,
      sub ∈ subs ∧
      (∃ snaps, w.listSnapshots sub.id = .ok snaps ∧ snap ∈ snaps) ∧
      snap.source_resource_id = some srcId ∧ srcId ≠ "" ∧
      diskExistsPure w.diskGet sub.id srcId = false ∧
      r = mkOrphanRecord sub snap srcId ∧
      r.size_gb = snap.disk_size_gb.getD 0 ∧
      (snap.disk_size_gb = none → r.size_gb = 0) ∧
      (snap.tags = none → r.tags = []) ∧
      (snap.time_created = none → r.created_time = "Unknown") ∧
      (∀ t, snap.time_created = some t → r.created_time = formatTimestamp t) := by
  intro r hr
  rw [(find_spec w m subs res m' hsubs hcf hm hfind).1] at hr
  rw [orphanSpec, List.mem_flatten] at hr
  obtain ⟨l, hl, hrl⟩ := hr
  rw [List.mem_map] at hl
  obtain ⟨sub, hsub, rfl⟩ := hl
  rw [subscriptionOrphans] at hrl
  cases hls : w.listSnapshots sub.id with
  | error u => rw [hls] at hrl; simp at hrl
  | ok snaps =>
    rw [hls] at hrl
    simp only at hrl
    rw [List.mem_filterMap] at hrl
    obtain ⟨snap, hsnap, horph⟩ := hrl
    unfold snapshotOrphan at horph
    cases hsrc : snap.source_resource_id with
    | none => rw [hsrc] at horph; simp at horph
    | some srcId =>
      rw [hsrc] at horph
      simp only at horph
      by_cases hemp : srcId = ""
      · rw [if_pos hemp] at horph; simp at horph
      · rw [if_neg hemp] at horph
        cases hpure : diskExistsPure w.diskGet sub.id srcId with
        | true => rw [if_pos (by rw [hpure])] at horph; simp at horph
        | false =>
          rw [if_neg (by rw [hpure]; exact Bool.false_ne_true)] at horph
          have hrec := Option.some.inj horph
          refine ⟨sub, snap, srcId, hsub, ⟨snaps, hls, hsnap⟩, hsrc, hemp, hpure,
            hrec.symm, ?_, ?_, ?_, ?_, ?_⟩
          · rw [← hrec]; rfl
          · intro hnone; rw [← hrec]; simp [mkOrphanRecord, hnone]
          · intro hnone; rw [← hrec]; simp [mkOrphanRecord, hnone]
          · intro hnone; rw [← hrec]; simp [mkOrphanRecord, hnone]
          · intro t ht; rw [← hrec]; simp [mkOrphanRecord, ht]

/-- `colonFree` holds of every subscription id in the witness world. -/
lemma worldC1_colonFree : ∀ sub ∈ [subW], colonFree sub.id := by
  intro sub hsub
  rcases List.mem_singleton.mp hsub with rfl
  show ':' ∉ ("sub1" : String).data
  decide

/-- Witness for C1: on the concrete world the scan returns exactly the
one qualifying snapshot's record, matching the specification list. -/
theorem claim_C1_witness :
    [mkOrphanRecord subW snapGone diskIdGone] = orphanSpec worldC1 [subW] :=
  claim_C1_orphan_membership worldC1 (Manager.init none) [subW]
    [mkOrphanRecord subW snapGone diskIdGone] mgrC1 rfl worldC1_colonFree
    (cacheGood_init worldC1.diskGet none) rfl

/-- Witness for C6: the single record of the witness scan satisfies the
default-resolution properties. -/
theorem claim_C6_witness :
    ∃ sub snap srcId,
      sub ∈ [subW] ∧
      (∃ snaps, worldC1.listSnapshots sub.id = .ok snaps ∧ snap ∈ snaps) ∧
      snap.source_resource_id = some srcId ∧ srcId ≠ "" ∧
      diskExistsPure worldC1.diskGet sub.id srcId = false ∧
      mkOrphanRecord subW snapGone diskIdGone = mkOrphanRecord sub snap srcId ∧
      (mkOrphanRecord subW snapGone diskIdGone).size_gb = snap.disk_size_gb.getD 0 ∧
      (snap.disk_size_gb = none → (mkOrphanRecord subW snapGone diskIdGone).size_gb = 0) ∧
      (snap.tags = none → (mkOrphanRecord subW snapGone diskIdGone).tags = []) ∧
      (snap.time_created = none →
        (mkOrphanRecord subW snapGone diskIdGone).created_time = "Unknown") ∧
      (∀ t, snap.time_created = some t →
        (mkOrphanRecord subW snapGone diskIdGone).created_time = formatTimestamp t) :=
  claim_C6_record_defaults worldC1 (Manager.init none) [subW]
    [mkOrphanRecord subW snapGone diskIdGone] mgrC1 rfl worldC1_colonFree
    (cacheGood_init worldC1.diskGet none) rfl
    (mkOrphanRecord subW snapGone diskIdGone) (List.mem_singleton.mpr rfl)

/-- C9: the per-subscription handler absorbs only `AzureError`.  In the
concrete world a snapshot with a missing source disk and an id of fewer
than 5 segments makes the record construction raise `IndexError`, which
escapes the handler and aborts discovery — even though the second,
never-reached subscription holds an ordinary orphan — and the invocation
surfaces as HTTP 500 with an error field instead of a partial result. -/
theorem claim_C9_index_error_aborts :
    (pySplit snapBadId.id '/').length < 5 ∧
    snapshotOrphan worldC9.diskGet subW2 snapGone =
      some (mkOrphanRecord subW2 snapGone diskIdGone) ∧
    find_orphaned_snapshots worldC9 (Manager.init none) = .error .indexError ∧
    mainModel {} .emptyBody worldC9 =
      { status := 500, errorField := true, summary := none,
        managerConstructed := true, finalManager := none } :=
  ⟨by decide, rfl, rfl, rfl⟩

/-- The deletion condition and summary shape of the success path of
`main`, as a single equation. -/
lemma mainModel_ok (env : Env) (body : ReqBody) (w : World)
    (orphans : List OrphanRecord) (m1 : Manager)
    (hcred : w.credentialOk = true)
    (hfind : find_orphaned_snapshots w
      (Manager.init (resolveSubscription env body)) = .ok (orphans, m1)) :
    mainModel env (.jsonBody body) w =
      { status := 200, errorField := false,
        summary := some (exportStep env w.storageOk
          (deletionStep w.deleteOk (effEnableDeletion env body)
            (effDryRun env body) (baseSummary (resolveSubscription env body) orphans) m1)),
        managerConstructed := true,
        finalManager := some (deletionStep w.deleteOk (effEnableDeletion env body)
          (effDryRun env body) (baseSummary (resolveSubscription env body) orphans) m1).2 } := by
  have hparse : parseBody (.jsonBody body) = .ok body := rfl
  simp only [mainModel, hparse, hcred, Bool.not_true, Bool.false_eq_true,
    if_false, hfind]

/-- The deletion step never changes the count, size sum, or scope of the
summary it decorates. -/
lemma deletionStep_pres (delOk : String → String → String → Bool)
    (ed dr : Bool) (base : Summary) (m1 : Manager) :
    (deletionStep delOk ed dr base m1).1.orphanedSnapshotsCount =
      base.orphanedSnapshotsCount ∧
    (deletionStep delOk ed dr base m1).1.totalSizeGB = base.totalSizeGB := by
  unfold deletionStep
  split <;> exact ⟨rfl, rfl⟩

/-- The deletion key after the deletion step: attached with the effective
flag and the deletion counts exactly when the step ran. -/
lemma deletionStep_deletion (delOk : String → String → String → Bool)
    (ed dr : Bool) (base : Summary) (m1 : Manager) :
    (deletionStep delOk ed dr base m1).1.deletion =
      if ed || !dr then
        some ⟨dr, (delete_orphaned_snapshots delOk m1 dr).1,
          (delete_orphaned_snapshots delOk m1 dr).2.1⟩
      else base.deletion := by
  unfold deletionStep
  split <;> rfl

/-- The export step only ever touches the `reportUrl` marker. -/
lemma exportStep_pres (env : Env) (sOk : Bool) (sm : Summary × Manager) :
    (exportStep env sOk sm).orphanedSnapshotsCount = sm.1.orphanedSnapshotsCount ∧
    (exportStep env sOk sm).totalSizeGB = sm.1.totalSizeGB ∧
    (exportStep env sOk sm).deletion = sm.1.deletion := by
  unfold exportStep
  split
  · split <;> exact ⟨rfl, rfl, rfl⟩
  · exact ⟨rfl, rfl, rfl⟩

/-- The truthiness filter in the summary's size sum drops only zeros, so
the filtered sum equals the plain sum of all sizes. -/
lemma pySumSizes_eq_sum (l : List OrphanRecord) :
    pySumSizes l = (l.map (fun r => r.size_gb)).sum := by
  induction l with
  | nil => rfl
  | cons r rest ih =>
    rw [pySumSizes] at ih ⊢
    rw [List.filter_cons]
    by_cases h : r.size_gb = 0
    · rw [if_neg (by simp [h])]
      rw [ih]
      simp [h]
    · rw [if_pos (by simp [h])]
      simp only [List.map_cons, List.sum_cons]
      rw [ih]

/-- C3: on the success path, the response summary carries a `deletion`
key if and only if the effective deletion flag is true or the effective
dry-run flag is false, where each effective flag is the
environment-derived value (defaults false resp. true, parsed
case-insensitively against `"true"`) overridden by the same-named body
field when present; the attached key holds the effective dry-run flag and
the deletion counts. -/
theorem claim_C3_deletion_condition (env : Env) (body : ReqBody) (w : World)
    (orphans : List OrphanRecord) (m1 : Manager)
    (hcred : w.credentialOk = true)
    (hfind : find_orphaned_snapshots w
      (Manager.init (resolveSubscription env body)) = .ok (orphans, m1)) :
    ∃ s, (mainModel env (.jsonBody body) w).summary = some s ∧
      (s.deletion.isSome = true ↔
        (effEnableDeletion env body = true ∨ effDryRun env body = false)) ∧
      s.deletion =
        (if effEnableDeletion env body || !effDryRun env body then
          some ⟨effDryRun env body,
            (delete_orphaned_snapshots w.deleteOk m1 (effDryRun env body)).1,
            (delete_orphaned_snapshots w.deleteOk m1 (effDryRun env body)).2.1⟩
        else none) := by
  rw [mainModel_ok env body w orphans m1 hcred hfind]
  refine ⟨_, rfl, ?_, ?_⟩
  · rw [(exportStep_pres env w.storageOk _).2.2, deletionStep_deletion]
    split
    · rename_i h
      simp only [Option.isSome_some, true_iff]
      simpa using h
    · rename_i h
      show (baseSummary (resolveSubscription env body) orphans).deletion.isSome = true ↔ _
      simp only [baseSummary, Option.isSome_none, Bool.false_eq_true, false_iff]
      intro hh
      exact h (by simpa using hh)
  · rw [(exportStep_pres env w.storageOk _).2.2, deletionStep_deletion]
    split <;> rfl

/-- Witness for C3: with body fields `enableDeletion := false` and
`dryRun := false` the deletion key is present (the right side of the iff
instantiates to `false = true ∨ false = false`, which holds). -/
theorem claim_C3_witness :
    ∃ s, (mainModel {} (.jsonBody bodyC3) worldC1).summary = some s ∧
      (s.deletion.isSome = true ↔
        (effEnableDeletion {} bodyC3 = true ∨ effDryRun {} bodyC3 = false)) ∧
      s.deletion =
        (if effEnableDeletion {} bodyC3 || !effDryRun {} bodyC3 then
          some ⟨effDryRun {} bodyC3,
            (delete_orphaned_snapshots worldC1.deleteOk mgrC1 (effDryRun {} bodyC3)).1,
            (delete_orphaned_snapshots worldC1.deleteOk mgrC1 (effDryRun {} bodyC3)).2.1⟩
        else none) :=
  claim_C3_deletion_condition {} bodyC3 worldC1
    [mkOrphanRecord subW snapGone diskIdGone] mgrC1 rfl rfl

/-- C7: on the success path the summary's `totalSizeGB` equals the sum of
the orphan records' sizes (missing sizes contribute 0, so the truthiness
filter in the source changes nothing) and `orphanedSnapshotsCount` equals
the number of records; in particular records of sizes 10, 0 and 25 give
total 35 and count 3. -/
theorem claim_C7_summary_totals (env : Env) (body : ReqBody) (w : World)
    (orphans : List OrphanRecord) (m1 : Manager)
    (hcred : w.credentialOk = true)
    (hfind : find_orphaned_snapshots w
      (Manager.init (resolveSubscription env body)) = .ok (orphans, m1)) :
    ∃ s, (mainModel env (.jsonBody body) w).summary = some s ∧
      (mainModel env (.jsonBody body) w).status = 200 ∧
      s.totalSizeGB = (orphans.map (fun r => r.size_gb)).sum ∧
      s.orphanedSnapshotsCount = orphans.length ∧
      pySumSizes [recA, recZero, recB] = 35 ∧
      ([recA, recZero, recB] : List OrphanRecord).length = 3 := by
  rw [mainModel_ok env body w orphans m1 hcred hfind]
  refine ⟨_, rfl, rfl, ?_, ?_, by decide, rfl⟩
  · rw [(exportStep_pres env w.storageOk _).2.1,
      (deletionStep_pres w.deleteOk (effEnableDeletion env body)
        (effDryRun env body) (baseSummary (resolveSubscription env body) orphans) m1).2]
    exact pySumSizes_eq_sum orphans
  · rw [(exportStep_pres env w.storageOk _).1,
      (deletionStep_pres w.deleteOk (effEnableDeletion env body)
        (effDryRun env body) (baseSummary (resolveSubscription env body) orphans) m1).1]
    rfl

/-- Witness for C7 on the concrete one-orphan world. -/
theorem claim_C7_witness :
    ∃ s, (mainModel {} (.jsonBody {}) worldC1).summary = some s ∧
      (mainModel {} (.jsonBody {}) worldC1).status = 200 ∧
      s.totalSizeGB =
        ([mkOrphanRecord subW snapGone diskIdGone].map (fun r => r.size_gb)).sum ∧
      s.orphanedSnapshotsCount = [mkOrphanRecord subW snapGone diskIdGone].length ∧
      pySumSizes [recA, recZero, recB] = 35 ∧
      ([recA, recZero, recB] : List OrphanRecord).length = 3 :=
  claim_C7_summary_totals {} {} worldC1
    [mkOrphanRecord subW snapGone diskIdGone] mgrC1 rfl rfl

/-- C10: a non-empty request body that is not valid JSON makes the entry
point answer HTTP 500 with an error field, before the credential or the
manager is constructed, and independently of the provider world — so no
scan, deletion, or export is performed. -/
theorem claim_C10_invalid_json (env : Env) (w : World) :
    mainModel env .invalidJson w =
      { status := 500, errorField := true, summary := none,
        managerConstructed := false, finalManager := none } := rfl
